import Mathlib

/-!
Verification of the Mercado Livre scraper (src/scrape_ml_product.py and
src/scrape_ml_search.py) against its natural-language specification.

The browser/Selenium layer is abstracted as a static, already-rendered
document: `find` maps a selector pattern to the element it locates (with
`none` standing for `NoSuchElementException`), an element carries its
`text` and its attribute map (`getAttribute` returning `none` models a
null attribute).  Python exceptions are modelled with `Except`; Python
truthiness of strings/floats is modelled explicitly.  The decimal values
flowing through the price pipeline are modelled exactly as `num / 10^scale`
(structure `PyNum`); every string below is the verbatim string from the
source (apostrophes written with the `\x27` escape).
-/

/-- Python exceptions that can escape the modelled fragments:
`ProductNotAvailable` (declared in scrape_ml_product.py) and `ValueError`
(raised by `float()` / `int()` on malformed strings). -/
inductive PyExc where
  | productNotAvailable
  | valueError
deriving DecidableEq

deriving instance DecidableEq for Except

/-- A rendered DOM element: its visible text (Selenium's `.text`, always a
string) and its attributes (`get_attribute` returns null = `none` for an
attribute that is not present). -/
structure Elem where
  text : String
  attrs : List (String × String)
deriving DecidableEq

/-- Models Selenium's `el.get_attribute(name)`. -/
def Elem.getAttribute (e : Elem) (a : String) : Option String :=
  e.attrs.lookup a

/-- Python truthiness of an optional string: `None` and `""` are falsy. -/
def pyTruthy (o : Option String) : Bool :=
  match o with
  | some s => s ≠ ""
  | none => false

/-- Models Python's `str.strip()` (for the whitespace alphabet in play). -/
def pyStrip (s : String) : String :=
  ⟨((s.data.dropWhile Char.isWhitespace).reverse.dropWhile Char.isWhitespace).reverse⟩

/-- Models `str.replace(a, "")` for a one-character pattern. -/
def removeChar (s : String) (a : Char) : String :=
  ⟨s.data.filter (fun c => c ≠ a)⟩

/-- Models `str.replace(a, b)` for one-character pattern and replacement. -/
def replaceChar (s : String) (a b : Char) : String :=
  ⟨s.data.map (fun c => if c = a then b else c)⟩

/-- Unicode lowercasing as performed by Python's `re.IGNORECASE`, restricted
to ASCII plus the accented Portuguese letters that occur in this code. -/
def lowChar (c : Char) : Char :=
  if c.isUpper then c.toLower
  else match c with
  | 'Á' => 'á'
  | 'À' => 'à'
  | 'Â' => 'â'
  | 'Ã' => 'ã'
  | 'É' => 'é'
  | 'Ê' => 'ê'
  | 'Í' => 'í'
  | 'Ó' => 'ó'
  | 'Ô' => 'ô'
  | 'Õ' => 'õ'
  | 'Ú' => 'ú'
  | 'Ç' => 'ç'
  | _ => c

/-- Case-folds a whole string (model of `re.IGNORECASE` matching). -/
def pyLower (s : String) : String :=
  ⟨s.data.map lowChar⟩

/-- Decides whether `pat` occurs as a contiguous substring of the second
list (model of `re.search` for a literal pattern). -/
def containsTok (pat : List Char) : List Char → Bool
  | [] => pat.isPrefixOf []
  | c :: t => pat.isPrefixOf (c :: t) || containsTok pat t

/-- Substring test on strings. -/
def strContains (hay pat : String) : Bool :=
  containsTok pat.data hay.data

/-- Value of a string of decimal digits (model of Python `int` on an
all-digit string; leading zeros are dropped, as `int` does). -/
def natOfDigits (cs : List Char) : Nat :=
  cs.foldl (fun n c => 10 * n + (c.toNat - 48)) 0

/-- Models Python's `str.isdigit()` for the ASCII alphabet that reaches it:
true iff the string is nonempty and all characters are decimal digits. -/
def pyIsdigit (s : String) : Bool :=
  s ≠ "" && s.data.all Char.isDigit

/-- Exact model of the nonnegative decimal values carried by the Python
floats in this pipeline: the value `num / 10 ^ scale`.  All the floats the
scraper builds come from decimal strings, so this representation is exact. -/
structure PyNum where
  num : Nat
  scale : Nat
deriving DecidableEq

/-- Rational value denoted by a `PyNum`. -/
def PyNum.toRat (d : PyNum) : ℚ :=
  (d.num : ℚ) / (10 : ℚ) ^ d.scale

/-- Python truthiness of an optional float: `None` and `0.0` are falsy. -/
def pyTruthyNum (o : Option PyNum) : Bool :=
  match o with
  | some q => q.num ≠ 0
  | none => false

/-- Models Python's `float()` on the only alphabet reachable in this code
(digit and period characters): accepted iff there is at most one period and
at least one digit; otherwise `ValueError` (`none`). -/
def pyFloat? (s : String) : Option PyNum :=
  let cs := s.data
  if (cs.all fun c => c.isDigit || c == '.') &&
      decide ((cs.filter (fun c => c == '.')).length ≤ 1) && cs.any Char.isDigit then
    let ip := cs.takeWhile (fun c => c != '.')
    let fp := (cs.dropWhile (fun c => c != '.')).drop 1
    some ⟨natOfDigits ip * 10 ^ fp.length + natOfDigits fp, fp.length⟩
  else none

/-- Structured-data (JSON-LD) `brand` field: absent, a plain JSON string, or
a nested object (a dict, whose `name` entry may itself be absent). -/
inductive JBrand where
  | absent
  | str (s : String)
  | obj (fields : List (String × String))
deriving DecidableEq

/-- Result of `_get_json_ld`: the first `@type == "Product"` block as a
mapping, restricted to the keys this model needs (`{}` when no block parses:
all fields absent).  The block-scanning loop itself is not claim-relevant. -/
structure JsonLd where
  name : Option String
  brand : JBrand
  model : Option String
deriving DecidableEq

/-- One row of a `table.ui-pdp-specs__table`: the text of its `th` and `td`
cells, `none` when the cell lookup raises `NoSuchElementException`. -/
structure SpecRow where
  th : Option String
  td : Option String
deriving DecidableEq

/-- A rendered product page, as consumed by `scrape_ml_product`:
`find` is `driver.find_element` keyed by the selector pattern
(`none` = `NoSuchElementException`), `jsonLd` is the parsed structured-data
block, `specRows` are the rows of the specification tables in order. -/
structure PDoc where
  find : String → Option Elem
  jsonLd : JsonLd
  specRows : List SpecRow

/-- Model of `_try_selectors` (scrape_ml_product.py lines 68-80): try each
selector in order; an element that is not found is skipped; a null attribute
or empty text/attribute value falls through to the next selector; the first
non-empty value is returned; `None` after exhausting the list. -/
def _try_selectors (doc : PDoc) (selectors : List String) (attr : Option String) : Option String :=
  match selectors with
  | [] => none
  | sel :: rest =>
    match doc.find sel with
    | none => _try_selectors doc rest attr
    | some el =>
      match (match attr with | some a => el.getAttribute a | none => some el.text) with
      | some v => if v = "" then _try_selectors doc rest attr else some v
      | none => _try_selectors doc rest attr

/-- The value a single selector yields inside `_try_selectors`: `some v`
iff the element is found and its text/attribute is a non-empty string. -/
def selMatch (doc : PDoc) (attr : Option String) (sel : String) : Option String :=
  match doc.find sel with
  | none => none
  | some el =>
    match (match attr with | some a => el.getAttribute a | none => some el.text) with
    | some v => if v = "" then none else some v
    | none => none

/-- Model of `_parse_price` (lines 83-89): falsy input gives `None`; strip
every character that is not a digit or a comma; empty result gives `None`;
otherwise delete periods, turn the comma into a period and call `float()`
(which raises `ValueError` on a malformed remainder). -/
def _parse_price (value : Option String) : Except PyExc (Option PyNum) :=
  match value with
  | none => Except.ok none
  | some v =>
    if v = "" then Except.ok none
    else
      let cleaned : String := ⟨v.data.filter (fun c => c.isDigit || c == ',')⟩
      if cleaned = "" then Except.ok none
      else
        match pyFloat? (replaceChar (removeChar cleaned '.') ',' '.') with
        | some q => Except.ok (some q)
        | none => Except.error PyExc.valueError

/-- Number of characters of `f"{n:02d}"`: the decimal width of `n`, padded
to at least two. -/
def padWidth (n : Nat) : Nat :=
  max 2 (Nat.repr n).length

/-- Model of the composite price assembly (lines 160-161): when the cents
text is truthy, the price is not `None` and the cents text is all digits,
rebuild the value as `float(f"{int(price)}.{int(cents):02d}")`; otherwise
keep the price unchanged.  `int(price)` truncates, which on these
nonnegative values is `num / 10 ^ scale` in `Nat`. -/
def centsAdjust (price : Option PyNum) (cents : Option String) : Option PyNum :=
  match cents, price with
  | some c, some p =>
    if c ≠ "" && pyIsdigit c then
      let n := natOfDigits c.data
      let w := padWidth n
      some ⟨(p.num / 10 ^ p.scale) * 10 ^ w + n, w⟩
    else some p
  | _, p => p

/-- Model of the availability inference (lines 171-173): `None` when the
stock message is falsy, otherwise `not re.search("(esgotado|último)", msg,
re.I)`. -/
def inStockOf (stockMsg : Option String) : Option Bool :=
  match stockMsg with
  | some m =>
    if m = "" then none
    else some (!(strContains (pyLower m) "esgotado" || strContains (pyLower m) "último"))
  | none => none

/-- Model of the rating-count expression (line 318):
`int(rating_count) if rating_count and rating_count.isdigit() else None`. -/
def ratingCountOf (rc : Option String) : Option Nat :=
  match rc with
  | some s => if s ≠ "" && pyIsdigit s then some (natOfDigits s.data) else none
  | none => none

/-- Model of the question-count expression (line 319):
`int(re.sub(r"\D", "", qna_count)) if qna_count else None`.  When the
stripped string is empty, `int("")` raises `ValueError`. -/
def qnaCountOf (q : Option String) : Except PyExc (Option Nat) :=
  match q with
  | some s =>
    if s = "" then Except.ok none
    else
      let d := s.data.filter Char.isDigit
      if d.isEmpty then Except.error PyExc.valueError
      else Except.ok (some (natOfDigits d))
  | none => Except.ok none

/-- Insert-or-overwrite for the Python dict built by the attributes loop. -/
def dictInsert (d : List (String × String)) (k v : String) : List (String × String) :=
  if d.any (fun p => p.1 = k) then d.map (fun p => if p.1 = k then (k, v) else p)
  else d ++ [(k, v)]

/-- Model of the specification-table loop (lines 241-253): per row, missing
`th` or `td` is skipped; the key is stripped and must be nonempty. -/
def buildAttributes (rows : List SpecRow) : List (String × String) :=
  rows.foldl (fun acc row =>
    match row.th, row.td with
    | some k0, some v0 =>
      let k := pyStrip k0
      if k = "" then acc else dictInsert acc k (pyStrip v0)
    | _, _ => acc) []

/-- Python `a or b` on optional strings: `a` when truthy, else `b`. -/
def pyOr (a b : Option String) : Option String :=
  if pyTruthy a then a else b

/-- Model of the brand expression (line 286), with Python's conditional
expression binding weaker than `or`: the whole line parses as
`(attributes.get("Marca") or json_ld.get("brand", {}).get("name"))
if isinstance(json_ld.get("brand"), dict) else json_ld.get("brand")`. -/
def brandOf (marca : Option String) (b : JBrand) : Option String :=
  match b with
  | JBrand.obj fields => pyOr marca (fields.lookup "name")
  | JBrand.str s => some s
  | JBrand.absent => none

/-- The selector chain for the product title (lines 135-143). -/
def titleSelectors : List String :=
  ["h1.ui-pdp-title", "//h1[contains(@class,\x27ui-pdp-title\x27)]",
   "meta[property=\x27og:title\x27]"]

/-- The selector chain for the integer price text (lines 147-152), read via
the `content` attribute. -/
def priceSelectors : List String :=
  ["span.price-tag-fraction", "meta[itemprop=\x27price\x27]"]

/-- The selector chain for the cents text (lines 155-159). -/
def centsSelectors : List String :=
  ["span.price-tag-cents", "span.andes-money-amount__cents"]

/-- The selector chain for the stock message (lines 163-170). -/
def stockSelectors : List String :=
  ["span.ui-pdp-stock-information__title", "//p[contains(@class,\x27ui-pdp-stock\x27)]"]

/-- The selector chain for the rating average (lines 213-217). -/
def ratingAvgSelectors : List String :=
  ["span.ui-pdp-review__rating", "meta[itemprop=\x27ratingValue\x27]"]

/-- The selector chain for the rating count (lines 218-222). -/
def ratingCountSelectors : List String :=
  ["span.ui-review-preview__quantity", "meta[itemprop=\x27ratingCount\x27]"]

/-- The selector chain for the question count (lines 223-227). -/
def qnaSelectors : List String :=
  ["section.ui-pdp-questions span", "//a[contains(.,\x27Perguntas\x27)]/span"]

/-- Model of the readiness wait (lines 121-130): in a static document the
bounded wait succeeds iff one of the three "page is ready" elements is
present; otherwise `TimeoutException` escalates to `ProductNotAvailable`. -/
def readyOf (doc : PDoc) : Bool :=
  (doc.find "h1.ui-pdp-title").isSome || (doc.find "span.price-tag-fraction").isSome ||
    (doc.find "section.ui-pdp-gallery").isSome

/-- Title resolution (lines 135-145): DOM chain first, then the JSON-LD
`name` only when the DOM value is falsy and the JSON-LD name is truthy. -/
def resolveTitle (doc : PDoc) : Option String :=
  let t := _try_selectors doc titleSelectors none
  if pyTruthy t = false ∧ pyTruthy doc.jsonLd.name = true then doc.jsonLd.name else t

/-- Price resolution (lines 147-161): parse the price text (possibly raising
`ValueError`), then apply the cents adjustment. -/
def resolvePrice (doc : PDoc) : Except PyExc (Option PyNum) :=
  match _parse_price (_try_selectors doc priceSelectors (some "content")) with
  | Except.error e => Except.error e
  | Except.ok p => Except.ok (centsAdjust p (_try_selectors doc centsSelectors none))

/-- Stock message resolution (lines 163-170). -/
def resolveStockMsg (doc : PDoc) : Option String :=
  _try_selectors doc stockSelectors none

/-- Rating-average resolution (lines 213-217 and 317): `_parse_price` on the
rating text, which can raise `ValueError`. -/
def resolveRatingAvg (doc : PDoc) : Except PyExc (Option PyNum) :=
  _parse_price (_try_selectors doc ratingAvgSelectors none)

/-- Question-count resolution (lines 223-227 and 319). -/
def resolveQna (doc : PDoc) : Except PyExc (Option Nat) :=
  qnaCountOf (_try_selectors doc qnaSelectors none)

/-- The claim-relevant portion of the returned record of `scrape_ml_product`
(the remaining entries of the Python dict are constants or plumbing —
source URL, capture time, placeholders — and no claim mentions them). -/
structure ProdData where
  title : Option String
  brand : Option String
  model : Option String
  price : Option PyNum
  in_stock : Option Bool
  stock_msg : Option String
  rating_average : Option PyNum
  rating_count : Option Nat
  qna_count : Option Nat
  attributes : List (String × String)
deriving DecidableEq

/-- Model of `scrape_ml_product` (lines 115-328) on a rendered document:
readiness wait, field resolution in source order (each `ValueError`
propagating), record assembly, and the final completeness check
`if not title and not price: raise ProductNotAvailable`. -/
def scrape_ml_product (doc : PDoc) : Except PyExc ProdData :=
  if readyOf doc = false then Except.error PyExc.productNotAvailable
  else
    let title := resolveTitle doc
    match resolvePrice doc with
    | Except.error e => Except.error e
    | Except.ok price =>
      let stock_msg := resolveStockMsg doc
      let in_stock := inStockOf stock_msg
      let attributes := buildAttributes doc.specRows
      match resolveRatingAvg doc with
      | Except.error e => Except.error e
      | Except.ok rating_avg =>
        let rating_count := ratingCountOf (_try_selectors doc ratingCountSelectors none)
        match resolveQna doc with
        | Except.error e => Except.error e
        | Except.ok qna_count =>
          let data : ProdData := ⟨title,
            brandOf (attributes.lookup "Marca") doc.jsonLd.brand,
            pyOr (attributes.lookup "Modelo") doc.jsonLd.model,
            price, in_stock, stock_msg, rating_avg, rating_count, qna_count, attributes⟩
          if pyTruthy title = false ∧ pyTruthyNum price = false then
            Except.error PyExc.productNotAvailable
          else Except.ok data

/-- One `li.ui-search-layout__item` of a search-result page, as consumed by
the item loop of `scrape_ml_search` (scrape_ml_search.py lines 61-74): the
three per-item `find_element` results (`none` = the lookup raises). -/
structure SItem where
  titleEl : Option Elem
  linkEl : Option Elem
  priceEl : Option Elem
deriving DecidableEq

/-- One entry of the returned list: the dict
`{"title": ..., "link": ..., "price": ...}`.  `link` is optional because
`get_attribute("href")` can return null without raising. -/
structure SResult where
  title : String
  link : Option String
  price : String
deriving DecidableEq

/-- A rendered search-result page: its item elements in page order and the
`a.andes-pagination__link--next` element (`none` = not found). -/
structure SearchPage where
  items : List SItem
  nextEl : Option Elem
deriving DecidableEq

/-- The try-block of the item loop (lines 64-74): all three element lookups
must succeed, otherwise the `except` clause skips the item; the texts are
stripped and the link is the `href` attribute (possibly null). -/
def extractItem (it : SItem) : Option SResult :=
  match it.titleEl, it.linkEl, it.priceEl with
  | some t, some l, some p =>
    some ⟨pyStrip t.text, l.getAttribute "href", pyStrip p.text⟩
  | _, _, _ => none

/-- Model of the item loop (lines 61-74): stop as soon as `limit` results
are accumulated (checked before each item), skip items whose extraction
raises, append the rest in order. -/
def addItems (limit : Nat) : List SItem → List SResult → List SResult
  | [], acc => acc
  | it :: rest, acc =>
    if limit ≤ acc.length then acc
    else
      match extractItem it with
      | some r => addItems limit rest (acc ++ [r])
      | none => addItems limit rest acc

/-- The extractable items of a page, in order. -/
def validItems (items : List SItem) : List SResult :=
  items.filterMap extractItem

/-- Model of the next-page step (lines 80-88): find the next button (a
failure breaks), read its `href` (a falsy value — null or empty — breaks),
otherwise follow it. -/
def nextPageUrl (p : SearchPage) : Option String :=
  match p.nextEl with
  | none => none
  | some el =>
    match el.getAttribute "href" with
    | none => none
    | some u => if u = "" then none else some u

/-- Model of the `while` loop of `scrape_ml_search` (lines 56-88) over a
static site (`site` maps a URL to its rendered page): loop while
`visited < pages and len(results) < limit`; after a page, stop when the page
or item bound is reached, else follow the next-page reference. -/
def searchLoop (site : String → SearchPage) (limit pages : Nat)
    (visited : Nat) (url : String) (acc : List SResult) : List SResult :=
  if h : visited < pages ∧ acc.length < limit then
    let acc2 := addItems limit (site url).items acc
    if pages ≤ visited + 1 ∨ limit ≤ acc2.length then acc2
    else
      match nextPageUrl (site url) with
      | none => acc2
      | some u => searchLoop site limit pages (visited + 1) u acc2
  else acc
termination_by pages - visited
decreasing_by simp_wf; omega

/-- Model of `scrape_ml_search` (lines 40-91). -/
def scrape_ml_search (site : String → SearchPage) (url : String)
    (limit pages : Nat) : List SResult :=
  searchLoop site limit pages 0 url []

/-- The chain of page URLs a traversal bounded by `n` pages would visit,
following next-page references from `url` and stopping at a missing or
falsy reference. -/
def chainUrls (site : String → SearchPage) : Nat → String → List String
  | 0, _ => []
  | n + 1, url =>
    url :: (match nextPageUrl (site url) with
      | none => []
      | some u => chainUrls site n u)

/-- Concatenation of the extractable items of the pages at `urls`. -/
def pagesItems (site : String → SearchPage) (urls : List String) : List SResult :=
  urls.foldr (fun u r => validItems (site u).items ++ r) []

theorem pagesItems_cons (site : String → SearchPage) (u : String) (urls : List String) :
    pagesItems site (u :: urls) = validItems (site u).items ++ pagesItems site urls := rfl

theorem addItems_take (limit : Nat) :
    ∀ (items : List SItem) (acc : List SResult), acc.length ≤ limit →
      addItems limit items acc = (acc ++ validItems items).take limit := by
  intro items
  induction items with
  | nil =>
    intro acc h
    simp [addItems, validItems, List.take_of_length_le h]
  | cons it rest ih =>
    intro acc h
    by_cases hl : limit ≤ acc.length
    · have hacc : acc.length = limit := Nat.le_antisymm h hl
      simp only [addItems, if_pos hl]
      rw [List.take_append_eq_append_take, List.take_of_length_le h, hacc,
        Nat.sub_self, List.take_zero, List.append_nil]
    · simp only [addItems, if_neg hl]
      cases he : extractItem it with
      | some r =>
        dsimp only
        rw [ih (acc ++ [r]) (by simp; omega)]
        simp [validItems, List.filterMap_cons, he]
      | none =>
        dsimp only
        rw [ih acc h]
        simp [validItems, List.filterMap_cons, he]

theorem addItems_of_le (limit : Nat) (items : List SItem) (acc : List SResult)
    (h : limit ≤ acc.length) : addItems limit items acc = acc := by
  cases items with
  | nil => rfl
  | cons it rest => simp [addItems, if_pos h]

theorem searchLoop_take (site : String → SearchPage) (limit : Nat) :
    ∀ (fuel pages visited : Nat) (url : String) (acc : List SResult),
      pages - visited ≤ fuel → acc.length ≤ limit →
      searchLoop site limit pages visited url acc
        = (acc ++ pagesItems site (chainUrls site (pages - visited) url)).take limit := by
  intro fuel
  induction fuel with
  | zero =>
    intro pages visited url acc hf hl
    have h0 : pages - visited = 0 := Nat.le_zero.mp hf
    rw [searchLoop, dif_neg (by omega)]
    rw [h0]
    simp [chainUrls, pagesItems, List.take_of_length_le hl]
  | succ fuel ih =>
    intro pages visited url acc hf hl
    rw [searchLoop]
    by_cases h : visited < pages ∧ acc.length < limit
    · rw [dif_pos h]
      obtain ⟨h1, h2⟩ := h
      obtain ⟨n, hn⟩ : ∃ n, pages - visited = n + 1 := ⟨pages - visited - 1, by omega⟩
      have hnv : pages - (visited + 1) = n := by omega
      have hacc2 : addItems limit (site url).items acc
          = (acc ++ validItems (site url).items).take limit := addItems_take limit _ acc hl
      rw [hn]
      simp only [chainUrls]
      by_cases hstop : pages ≤ visited + 1 ∨ limit ≤ (addItems limit (site url).items acc).length
      · rw [if_pos hstop]
        rcases hstop with hp | hlim
        · have hn0 : n = 0 := by omega
          subst hn0
          cases hnx : nextPageUrl (site url) with
          | none =>
            simp [pagesItems_cons, pagesItems, hacc2]
          | some u =>
            simp [pagesItems_cons, pagesItems, chainUrls, hacc2]
        · -- the item bound was hit on this page: later pages are cut by take
          have hlen : limit ≤ (acc ++ validItems (site url).items).length := by
            rw [hacc2] at hlim
            simp only [List.length_take] at hlim
            omega
          rw [hacc2]
          cases hnx : nextPageUrl (site url) with
          | none =>
            simp [pagesItems_cons, pagesItems]
          | some u =>
            rw [pagesItems_cons, ← List.append_assoc]
            conv_rhs => rw [List.take_append_eq_append_take]
            rw [Nat.sub_eq_zero_of_le hlen, List.take_zero, List.append_nil]
      · rw [if_neg hstop]
        push_neg at hstop
        obtain ⟨hp, hlim⟩ := hstop
        have hlt : (acc ++ validItems (site url).items).length < limit := by
          rw [hacc2] at hlim
          simp only [List.length_take] at hlim
          omega
        have hacc2' : addItems limit (site url).items acc
            = acc ++ validItems (site url).items := by
          rw [hacc2, List.take_of_length_le (Nat.le_of_lt hlt)]
        cases hnx : nextPageUrl (site url) with
        | none =>
          dsimp only
          rw [hacc2', pagesItems_cons]
          simp only [pagesItems, List.foldr_nil, List.append_nil]
          exact (List.take_of_length_le (Nat.le_of_lt hlt)).symm
        | some u =>
          dsimp only
          rw [ih pages (visited + 1) u _ (by omega) (by rw [hacc2']; omega), hacc2', hnv,
            pagesItems_cons, List.append_assoc]
    · rw [dif_neg h]
      push_neg at h
      rcases Nat.lt_or_ge visited pages with hv | hv
      · have hlim : limit ≤ acc.length := h hv
        have hacc : acc.length = limit := Nat.le_antisymm hl hlim
        rw [List.take_append_eq_append_take, List.take_of_length_le hl, hacc, Nat.sub_self,
          List.take_zero, List.append_nil]
      · have h0 : pages - visited = 0 := by omega
        rw [h0]
        simp [chainUrls, pagesItems, List.take_of_length_le hl]

theorem scrape_ml_search_take (site : String → SearchPage) (url : String) (limit pages : Nat) :
    scrape_ml_search site url limit pages
      = (pagesItems site (chainUrls site pages url)).take limit := by
  rw [scrape_ml_search, searchLoop_take site limit (pages - 0) pages 0 url [] (by omega)
    (by simp)]
  simp

theorem try_selectors_eq_findSome (doc : PDoc) (attr : Option String) :
    ∀ sels : List String, _try_selectors doc sels attr = sels.findSome? (selMatch doc attr) := by
  intro sels
  induction sels with
  | nil => rfl
  | cons sel rest ih =>
    simp only [_try_selectors, selMatch, List.findSome?_cons]
    cases h : doc.find sel with
    | none =>
      dsimp only
      exact ih
    | some el =>
      dsimp only
      cases hv : (match attr with | some a => el.getAttribute a | none => some el.text) with
      | none =>
        dsimp only
        exact ih
      | some v =>
        dsimp only
        by_cases he : v = ""
        · simp only [if_pos he]
          exact ih
        · simp only [if_neg he]

theorem findSome?_first {α β : Type} (f : α → Option β) :
    ∀ (l1 : List α) (x : α) (l2 : List α) (v : β),
      (∀ s ∈ l1, f s = none) → f x = some v → (l1 ++ x :: l2).findSome? f = some v := by
  intro l1
  induction l1 with
  | nil =>
    intro x l2 v _ hx
    simp [List.findSome?_cons, hx]
  | cons a t ih =>
    intro x l2 v h hx
    have ha : f a = none := h a (by simp)
    simp only [List.cons_append, List.findSome?_cons, ha]
    exact ih x l2 v (fun s hs => h s (by simp [hs])) hx

theorem findSome?_none {α β : Type} (f : α → Option β) :
    ∀ l : List α, (∀ s ∈ l, f s = none) → l.findSome? f = none := by
  intro l
  induction l with
  | nil => intro _; rfl
  | cons a t ih =>
    intro h
    have ha : f a = none := h a (by simp)
    simp only [List.findSome?_cons, ha]
    exact ih (fun s hs => h s (by simp [hs]))

/-- A document instantiating the resolver theorems: selector `a` finds no
element, `b` finds an element with empty text, `c` and `d` find elements
with non-empty text. -/
def wdoc : PDoc :=
  ⟨fun s =>
    if s = "b" then some ⟨"", []⟩
    else if s = "c" then some ⟨"VC", []⟩
    else if s = "d" then some ⟨"VD", []⟩
    else none,
  ⟨none, JBrand.absent, none⟩, []⟩

/-- C2: for every document and ordered locator chain, `_try_selectors`
returns the value of the first locator yielding a non-empty value (a not
found element, a null attribute and an empty string are all misses that are
skipped, not errors); with no such locator the result is `none`, not an
error.  The first conjunct characterises the resolver as the first match in
chain order; the second states that whenever the locator at position `|l1|`
is the first to match, any later matching locator (inside `l2`) is ignored —
so for positions `i < j` both matching, the result is locator `i`'s value;
the third is the all-miss case. -/
theorem c2_resolver_first_match :
    (∀ (doc : PDoc) (attr : Option String) (sels : List String),
        _try_selectors doc sels attr = sels.findSome? (selMatch doc attr))
    ∧ (∀ (doc : PDoc) (attr : Option String) (l1 : List String) (sel : String)
        (l2 : List String) (v : String),
        (∀ s ∈ l1, selMatch doc attr s = none) → selMatch doc attr sel = some v →
        _try_selectors doc (l1 ++ sel :: l2) attr = some v)
    ∧ (∀ (doc : PDoc) (attr : Option String) (sels : List String),
        (∀ s ∈ sels, selMatch doc attr s = none) → _try_selectors doc sels attr = none) := by
  refine ⟨fun doc attr sels => try_selectors_eq_findSome doc attr sels, ?_, ?_⟩
  · intro doc attr l1 sel l2 v h hx
    rw [try_selectors_eq_findSome]
    exact findSome?_first _ l1 sel l2 v h hx
  · intro doc attr sels h
    rw [try_selectors_eq_findSome]
    exact findSome?_none _ sels h

/-- Witness for C2 on `wdoc`: with misses at positions 0 and 1, the first
matching locator `c` wins even though `d` also matches; an all-miss chain
resolves to `none`. -/
theorem c2_resolver_first_match_w :
    _try_selectors wdoc (["a", "b"] ++ "c" :: ["d"]) none = some "VC"
    ∧ _try_selectors wdoc ["a", "b"] none = none :=
  ⟨c2_resolver_first_match.2.1 wdoc none ["a", "b"] "c" ["d"] "VC" (by decide) (by decide),
   c2_resolver_first_match.2.2 wdoc none ["a", "b"] (by decide)⟩

/-- C3: `_parse_price` maps `"R$ 1.234,56"` to exactly the decimal value
`1234.56` (the `PyNum` `123456 / 10^2`), and maps `""` and `"—"` to absent
(`None`), in both cases without raising. -/
theorem c3_currency_normalization :
    _parse_price (some "R$ 1.234,56") = Except.ok (some ⟨123456, 2⟩)
    ∧ PyNum.toRat ⟨123456, 2⟩ = (1234.56 : ℚ)
    ∧ _parse_price (some "") = Except.ok none
    ∧ _parse_price (some "—") = Except.ok none := by
  refine ⟨by decide, ?_, by decide, by decide⟩
  norm_num [PyNum.toRat]

/-- C4: the claim says currency parsing never crashes, but `_parse_price`
raises `ValueError` on `"1,2,3"`: the cleaned string keeps all three commas,
becomes `"1.2.3"` after the separator swap, and `float("1.2.3")` raises.
This contradicts the code's own resilience intent, so the claim is right and
the code is wrong. -/
theorem c4_parse_price_crash :
    replaceChar (removeChar (⟨"1,2,3".data.filter (fun c => c.isDigit || c == ',')⟩ : String)
        '.') ',' '.' = "1.2.3"
    ∧ pyFloat? "1.2.3" = none
    ∧ _parse_price (some "1,2,3") = Except.error PyExc.valueError := by decide

/-- Counterexample for C5: the stock regex is `"(esgotado|último)"`, and the
string `"Últimas unidades"` contains neither token (its case-folding
`"últimas unidades"` does not contain the singular `"último"`), so the code
infers `in_stock = True` — the claim says it must yield `false`. -/
theorem c5_availability_cex :
    inStockOf (some "Últimas unidades") = some true := by decide

/-- C5 amended: availability inference is `None` for an absent message and
otherwise case-insensitively searches for the tokens `"esgotado"` and
`"último"`: a message containing either (such as `"Produto esgotado"` or
`"Último disponível"`) yields `false`, any other message — including
`"Últimas unidades"`, which does not contain the singular token `"último"` —
yields `true`, and `"Chega grátis"` yields `true`. -/
theorem c5_availability_amended :
    inStockOf (some "Produto esgotado") = some false
    ∧ inStockOf (some "PRODUTO ESGOTADO") = some false
    ∧ inStockOf (some "Último disponível") = some false
    ∧ inStockOf (some "Últimas unidades") = some true
    ∧ inStockOf (some "Chega grátis") = some true
    ∧ inStockOf none = none := by decide

/-- A product page where both the DOM and the structured data offer a title,
the DOM specification table has `Marca → Nike`, and the structured-data
brand is the plain string `"Acme"`. -/
def c6doc : PDoc :=
  ⟨fun s => if s = "h1.ui-pdp-title" then some ⟨"DomTitle", []⟩ else none,
   ⟨some "JsonTitle", JBrand.str "Acme", none⟩,
   [⟨some "Marca", some "Nike"⟩]⟩

/-- C6: the DOM-over-structured-data precedence holds for the title (the
record keeps `"DomTitle"`, not `"JsonTitle"`), but fails for the brand: the
brand line parses as `(attributes.get("Marca") or ...) if
isinstance(json_ld.get("brand"), dict) else json_ld.get("brand")`, so when
the structured-data brand is a plain string (`"Acme"`) or absent, the DOM
value `"Nike"` is discarded — the assembled record carries `"Acme"`
(respectively `None`).  The sibling `model` line shows the intended
pattern, so the claim is right and the code line is a precedence slip. -/
theorem c6_structured_fallback_bug :
    scrape_ml_product c6doc
      = Except.ok ⟨some "DomTitle", some "Acme", none, none, none, none, none, none, none,
          [("Marca", "Nike")]⟩
    ∧ (buildAttributes c6doc.specRows).lookup "Marca" = some "Nike"
    ∧ brandOf (some "Nike") (JBrand.str "Acme") = some "Acme"
    ∧ brandOf (some "Nike") JBrand.absent = none
    ∧ brandOf (some "Nike") (JBrand.obj [("name", "Acme")]) = some "Nike" := by decide

/-- C9: the claim describes strip-digits-then-parse semantics for both count
fields, but the code implements it for neither: the question-count
expression `int(re.sub(r"\D", "", qna_count))` raises `ValueError` when a
truthy text (such as `"abc"`) contains no digit, and the rating-count
expression `int(rating_count) if rating_count and rating_count.isdigit()
else None` does not strip at all, so `"1.234"` yields absent instead of
`1234`. -/
theorem c9_count_parsing_bug :
    qnaCountOf (some "abc") = Except.error PyExc.valueError
    ∧ qnaCountOf (some "1.234") = Except.ok (some 1234)
    ∧ qnaCountOf none = Except.ok none
    ∧ ratingCountOf (some "1.234") = none
    ∧ ratingCountOf (some "1234") = some 1234 := by decide

/-- A product page whose only element is the price fraction with `content`
attribute `"0"`: the resolved title is absent and the resolved price is the
present value `0.0`. -/
def c1doc : PDoc :=
  ⟨fun s => if s = "span.price-tag-fraction" then some ⟨"", [("content", "0")]⟩ else none,
   ⟨none, JBrand.absent, none⟩, []⟩

/-- Counterexample for C1: on `c1doc` field resolution completes and the
resolved price is present (the value `0.0`), so the claim says the
assembled record is returned — but the completeness check is Python
truthiness (`if not title and not price`), `0.0` is falsy, and the call
raises `ProductNotAvailable` instead. -/
theorem c1_completeness_cex :
    resolvePrice c1doc = Except.ok (some ⟨0, 0⟩)
    ∧ scrape_ml_product c1doc = Except.error PyExc.productNotAvailable := by decide

/-- C1 amended: for every extraction call that completes field resolution
(the readiness wait succeeded and none of the numeric normalizations
raised), the call raises `ProductNotAvailable` when the resolved title is
falsy (absent or empty) and the resolved price is falsy (absent or `0.0`);
when either is truthy the assembled record is returned. -/
theorem c1_completeness_amended :
    ∀ (doc : PDoc) (p ra : Option PyNum) (q : Option Nat),
      readyOf doc = true →
      resolvePrice doc = Except.ok p →
      resolveRatingAvg doc = Except.ok ra →
      resolveQna doc = Except.ok q →
      ((pyTruthy (resolveTitle doc) = false ∧ pyTruthyNum p = false →
          scrape_ml_product doc = Except.error PyExc.productNotAvailable)
        ∧ (pyTruthy (resolveTitle doc) = true ∨ pyTruthyNum p = true →
          scrape_ml_product doc
            = Except.ok ⟨resolveTitle doc,
                brandOf ((buildAttributes doc.specRows).lookup "Marca") doc.jsonLd.brand,
                pyOr ((buildAttributes doc.specRows).lookup "Modelo") doc.jsonLd.model,
                p, inStockOf (resolveStockMsg doc), resolveStockMsg doc, ra,
                ratingCountOf (_try_selectors doc ratingCountSelectors none), q,
                buildAttributes doc.specRows⟩)) := by
  intro doc p ra q hready hp hra hq
  constructor
  · intro ⟨ht, hpn⟩
    simp only [scrape_ml_product, hready, hp, hra, hq]
    simp [ht, hpn]
  · intro hor
    simp only [scrape_ml_product, hready, hp, hra, hq]
    rcases hor with ht | hpn
    · simp [ht]
    · simp [hpn]

/-- A product page whose only content is a DOM title. -/
def c1wdoc : PDoc :=
  ⟨fun s => if s = "h1.ui-pdp-title" then some ⟨"Cartucho HP 667", []⟩ else none,
   ⟨none, JBrand.absent, none⟩, []⟩

/-- Witness for C1 amended: a page with only a title resolves to a returned
record carrying that title. -/
theorem c1_completeness_amended_w :
    scrape_ml_product c1wdoc
      = Except.ok ⟨some "Cartucho HP 667", none, none, none, none, none, none, none, none,
          []⟩ := by
  have h := (c1_completeness_amended c1wdoc none none none (by decide) (by decide) (by decide)
    (by decide)).2 (Or.inl (by decide))
  rw [h]
  decide

/-- One synthetic extractable search item named `s` (title text `s`, link
href `s`, price text `"10"`). -/
def demoItem (s : String) : SItem :=
  ⟨some ⟨s, []⟩, some ⟨"", [("href", s)]⟩, some ⟨"10", []⟩⟩

/-- A search page with ten items (names prefixed by `p`) and an optional
next-page link. -/
def demoPage (p : String) (nxt : Option String) : SearchPage :=
  ⟨(List.range 10).map (fun i => demoItem (p ++ Nat.repr i)),
   nxt.map (fun u => ⟨"", [("href", u)]⟩)⟩

/-- A site of three chained result pages of ten extractable items each. -/
def demoSite : String → SearchPage := fun u =>
  if u = "page1" then demoPage "page1-" (some "page2")
  else if u = "page2" then demoPage "page2-" (some "page3")
  else if u = "page3" then demoPage "page3-" none
  else ⟨[], none⟩

/-- C7: every traversal returns exactly the first `limit` items of the
pages in the visited chain (bounded by `pages`), in page-then-position
order — so at most `limit` items, drawn only from the first `pages` pages,
accumulation cutting off mid-page; and concretely, on three pages of ten
items each with `limit = 15, pages = 2`, exactly fifteen items are
returned, all of them items of the first two pages. -/
theorem c7_pagination_bounds :
    (∀ (site : String → SearchPage) (url : String) (limit pages : Nat),
        scrape_ml_search site url limit pages
          = (pagesItems site (chainUrls site pages url)).take limit
        ∧ (scrape_ml_search site url limit pages).length ≤ limit)
    ∧ (scrape_ml_search demoSite "page1" 15 2).length = 15
    ∧ (∀ r ∈ scrape_ml_search demoSite "page1" 15 2,
        r ∈ validItems (demoSite "page1").items ++ validItems (demoSite "page2").items) := by
  refine ⟨fun site url limit pages => ⟨scrape_ml_search_take site url limit pages, ?_⟩, ?_, ?_⟩
  · rw [scrape_ml_search_take site url limit pages]
    simp only [List.length_take]
    omega
  · rw [scrape_ml_search_take]
    decide
  · rw [scrape_ml_search_take]
    decide

/-- Witness for C7: the first returned item is indeed an item of the first
two pages. -/
theorem c7_pagination_bounds_w :
    (⟨"page1-0", some "page1-0", "10"⟩ : SResult)
      ∈ validItems (demoSite "page1").items ++ validItems (demoSite "page2").items :=
  c7_pagination_bounds.2.2 ⟨"page1-0", some "page1-0", "10"⟩
    (by rw [scrape_ml_search_take]; decide)

/-- C8: when the current page has no next-page reference (the locator finds
no element, or the resolved href is null or empty — exactly the cases where
`nextPageUrl` is `none`), the loop returns the items accumulated so far
plus the current page's items, for any remaining page budget; in
particular a whole traversal whose first page lacks a next reference
returns just that page's extractable items (cut at `limit`), normally, for
every `pages ≥ 1`. -/
theorem c8_missing_next_terminates :
    (∀ (site : String → SearchPage) (limit pages visited : Nat) (url : String)
        (acc : List SResult),
        visited < pages → acc.length < limit → nextPageUrl (site url) = none →
        searchLoop site limit pages visited url acc = addItems limit (site url).items acc)
    ∧ (∀ (site : String → SearchPage) (url : String) (limit pages : Nat),
        1 ≤ pages → nextPageUrl (site url) = none →
        scrape_ml_search site url limit pages = (validItems (site url).items).take limit) := by
  constructor
  · intro site limit pages visited url acc h1 h2 hn
    rw [searchLoop, dif_pos ⟨h1, h2⟩]
    dsimp only
    by_cases hstop : pages ≤ visited + 1 ∨ limit ≤ (addItems limit (site url).items acc).length
    · rw [if_pos hstop]
    · rw [if_neg hstop, hn]
  · intro site url limit pages hp hn
    rw [scrape_ml_search_take]
    obtain ⟨n, rfl⟩ : ∃ n, pages = n + 1 := ⟨pages - 1, by omega⟩
    simp [chainUrls, hn, pagesItems]

/-- A site whose every page has two extractable items and no next link. -/
def c8site : String → SearchPage := fun _ =>
  ⟨[demoItem "only-0", demoItem "only-1"], none⟩

/-- Witness for C8 on a one-page site with `pages = 7` still allowed. -/
theorem c8_missing_next_terminates_w :
    searchLoop c8site 10 7 0 "start" [] = addItems 10 (c8site "start").items []
    ∧ scrape_ml_search c8site "start" 10 7 = (validItems (c8site "start").items).take 10 :=
  ⟨c8_missing_next_terminates.1 c8site 10 7 0 "start" [] (by decide) (by decide) (by decide),
   c8_missing_next_terminates.2 c8site "start" 10 7 (by decide) (by decide)⟩

theorem extractItem_none (it : SItem)
    (h : it.titleEl = none ∨ it.linkEl = none ∨ it.priceEl = none) :
    extractItem it = none := by
  obtain ⟨bt, bl, bp⟩ := it
  cases bt <;> cases bl <;> cases bp <;> first | rfl | simp at h

/-- An item whose three elements are all found but whose link element has no
`href` attribute. -/
def noHrefItem : SItem := ⟨some ⟨"T", []⟩, some ⟨"", []⟩, some ⟨"9", []⟩⟩

/-- Counterexample for C10: `noHrefItem`'s link cannot be resolved to a
present value (its `href` is null), yet the item is not skipped — it
appears in the returned sequence, with a null link: only a raising element
lookup triggers the `except`-skip, a null attribute does not. -/
theorem c10_item_skip_cex :
    addItems 10 [noHrefItem] [] = [⟨"T", none, "9"⟩] := by decide

/-- C10 amended: an item for which one of the three required element
lookups (title, link, price) fails is skipped — it contributes nothing to
the returned sequence — and does not abort extraction of the other items
of its page; an item whose elements are all found is kept even if its link
attribute resolves to null. -/
theorem c10_item_skip_amended :
    ∀ (limit : Nat) (acc : List SResult) (l1 : List SItem) (bad : SItem) (l2 : List SItem),
      bad.titleEl = none ∨ bad.linkEl = none ∨ bad.priceEl = none →
      addItems limit (l1 ++ bad :: l2) acc = addItems limit (l1 ++ l2) acc := by
  intro limit acc l1 bad l2 hbad
  have hext : extractItem bad = none := extractItem_none bad hbad
  induction l1 generalizing acc with
  | nil =>
    by_cases hl : limit ≤ acc.length
    · rw [List.nil_append, List.nil_append, addItems_of_le limit _ acc hl,
        addItems_of_le limit _ acc hl]
    · simp only [List.nil_append, addItems, if_neg hl, hext]
  | cons a t ih =>
    by_cases hl : limit ≤ acc.length
    · rw [addItems_of_le limit _ acc hl, addItems_of_le limit _ acc hl]
    · simp only [List.cons_append, addItems, if_neg hl]
      cases he : extractItem a with
      | some r =>
        dsimp only
        exact ih (acc ++ [r])
      | none =>
        dsimp only
        exact ih acc

/-- An item whose title element lookup fails. -/
def badTitleItem : SItem := ⟨none, some ⟨"", [("href", "x")]⟩, some ⟨"9", []⟩⟩

/-- Witness for C10 amended: a failing item between two good ones is
skipped and both neighbours are extracted. -/
theorem c10_item_skip_amended_w :
    addItems 5 ([demoItem "ok-a"] ++ badTitleItem :: [demoItem "ok-b"]) []
      = addItems 5 [demoItem "ok-a", demoItem "ok-b"] []
    ∧ addItems 5 [demoItem "ok-a", demoItem "ok-b"] []
      = [⟨"ok-a", some "ok-a", "10"⟩, ⟨"ok-b", some "ok-b", "10"⟩] :=
  ⟨c10_item_skip_amended 5 [] [demoItem "ok-a"] badTitleItem [demoItem "ok-b"] (Or.inl rfl),
   by decide⟩
